import Mathlib

/-! Shallow embedding of the `llm` CLI core (github.com/flacial/llm).

The embedded code comes from:
  * `internal/llm/client.go`   — `GetChatCompletion`, `GetStreamingChatCompletion`
  * `cmd/root.go`              — the request-building and blocking-output part of `rootCmd.RunE`
  * `cmd` (prompt resolution)  — `getPromptContent`
  * `internal/templating/template.go` — `Template`, `ProcessUserPromptTemplate`

External collaborators (the HTTP transport, `encoding/json`, the terminal
sink) are modelled as explicit parameters: the transport result is a value,
JSON (un)marshalling is an oracle function, and the output sink is the list
of write calls issued to it, in order.
-/

namespace LLMSpec

/-! Section: Go string primitives used by the embedded code -/

/-- Go `unicode.IsSpace` restricted to Latin-1, which is all the embedded
code ever feeds it: space, tab, newline, vertical tab, form feed, carriage
return, NEL and NBSP. -/
def goIsSpace (c : Char) : Bool :=
  c = ' ' || c = '\t' || c = '\n' || c = (Char.ofNat 11) || c = (Char.ofNat 12) ||
  c = '\r' || c = (Char.ofNat 133) || c = (Char.ofNat 160)

/-- Drop leading Go whitespace from a character list. -/
def dropSpaceLeft : List Char → List Char
  | [] => []
  | c :: rest => if goIsSpace c then dropSpaceLeft rest else c :: rest

/-- Go `strings.TrimSpace`: remove leading and trailing whitespace. -/
def goTrimSpace (s : String) : String :=
  ⟨((dropSpaceLeft ((dropSpaceLeft s.data.reverse)).reverse))⟩

/-- Go `strings.Join(elems, sep)`. -/
def goJoin (sep : String) : List String → String
  | [] => ""
  | [s] => s
  | s :: rest => s ++ sep ++ goJoin sep rest

/-- Go `strings.HasPrefix(s, p)`. -/
def goStartsWith (s p : String) : Bool :=
  p.data.isPrefixOf s.data

/-- Go `strings.TrimPrefix(s, p)`: drop the leading `p` when present,
otherwise return `s` unchanged. -/
def goTrimLeading (s p : String) : String :=
  if goStartsWith s p then ⟨s.data.drop p.data.length⟩ else s

/-! Section: data model of `internal/llm/client.go` -/

/-- Struct `ChatCompletionMessage`: one role/content message. -/
structure ChatCompletionMessage where
  role : String
  content : String
  deriving DecidableEq, Repr

/-- Values of `float64` carried by the program. The code never computes with
them — it only stores and forwards them — so they are modelled as
rationals. -/
abbrev Float64 := Rat

/-- Struct `ChatCompletionRequest`: the serialized request body.
`Temperature *float64` is an optional value. -/
structure ChatCompletionRequest where
  model : String
  messages : List ChatCompletionMessage
  stream : Bool
  temperature : Option Float64
  deriving DecidableEq, Repr

/-- Struct `ChatCompletionResponseMessage`. -/
structure ChatCompletionResponseMessage where
  role : String
  content : String
  finishReason : String
  reasoning : String
  deriving DecidableEq, Repr

/-- Struct `ChatCompletionResponseChoices`. -/
structure ChatCompletionResponseChoices where
  index : Int
  message : ChatCompletionResponseMessage
  deriving DecidableEq, Repr

/-- Struct `ChatCompletionResponse`: the non-streaming response body. -/
structure ChatCompletionResponse where
  id : String
  choices : List ChatCompletionResponseChoices
  deriving DecidableEq, Repr

/-- Struct `ChatCompletionStreamResponseMessageDelta`. -/
structure ChatCompletionStreamResponseMessageDelta where
  role : String
  content : String
  deriving DecidableEq, Repr

/-- Struct `ChatCompletionStreamResponseChoices`. -/
structure ChatCompletionStreamResponseChoices where
  index : Int
  delta : ChatCompletionStreamResponseMessageDelta
  finishReason : String
  deriving DecidableEq, Repr

/-- Struct `ChatCompletionStreamResponse`: one decoded streaming chunk. -/
structure ChatCompletionStreamResponse where
  id : String
  created : Int
  model : String
  choices : List ChatCompletionStreamResponseChoices
  deriving DecidableEq, Repr

/-! Section: transport model.

`c.HTTPClient.Do(httpReq)` either fails (possibly because the request
context was cancelled — the code tests `errors.Is(err, context.Canceled)`)
or yields a response.  For the streaming call the body is consumed by a
`bufio.Scanner`, so it is modelled as the list of lines the scanner
yields, plus the error `scanner.Err()` reports once those lines are
exhausted (`none` = clean EOF, `some b` = read failure, with `b` true when
the failure was caused by cancellation).  `bodyText` is what
`io.ReadAll(resp.Body)` would return; it is only consulted on a non-OK
status, before any line scanning. -/

structure StreamHTTPResponse where
  statusCode : Nat
  bodyText : String
  lines : List String
  readErr : Option Bool
  deriving DecidableEq, Repr

/-- The non-streaming response: status plus the raw body bytes. -/
structure BlockHTTPResponse where
  statusCode : Nat
  bodyText : String
  deriving DecidableEq, Repr

/-- Result of `HTTPClient.Do`: `error b` is a transport failure with `b`
true when `errors.Is(err, context.Canceled)` holds. -/
abbrev DoResult (ρ : Type) := Except Bool ρ

/-- The error values the client functions can return, by kind. -/
inductive LLMError where
  /-- Error `context.Canceled` returned unwrapped. -/
  | canceled : LLMError
  /-- Wrapped `error sending request to LLM API`. -/
  | transportError : LLMError
  /-- Wrapped non-OK status with code and full body text. -/
  | nonOKStatus (code : Nat) (body : String) : LLMError
  /-- Wrapped `error unmarshalling streaming chunk` for payload `data`. -/
  | unmarshalError (data : String) : LLMError
  /-- Wrapped `error reading streaming response`. -/
  | readError : LLMError
  /-- Wrapped `error decoding LLM API response` (blocking mode). -/
  | decodeError : LLMError
  deriving DecidableEq, Repr

/-- The `fmt.Errorf` message text of the non-OK status error
(`"LLM API returned non-OK status: %d, body: %s"`). -/
def LLMError.message : LLMError → String
  | .nonOKStatus code body =>
      "LLM API returned non-OK status: " ++ toString code ++ ", body: " ++ body
  | .canceled => "context canceled"
  | .transportError => "error sending request to LLM API"
  | .unmarshalError _ => "error unmarshalling streaming chunk"
  | .readError => "error reading streaming response"
  | .decodeError => "error decoding LLM API response"

/-- String `s` contains `sub` as a substring. -/
def containsText (s sub : String) : Prop :=
  ∃ pre post : String, s = pre ++ sub ++ post

/-! Section: the streaming consumer, `GetStreamingChatCompletion` (client.go:150-238) -/

/-- The body of `for _, choice := range chunk.Choices` (client.go:214-224):
non-empty `delta.content` is written to the sink and appended to the
accumulator; a non-empty `finish_reason` writes `"\n\n"` to the sink only. -/
def processChoice (choice : ChatCompletionStreamResponseChoices)
    (acc : String) (writes : List String) : String × List String :=
  let (acc, writes) :=
    if choice.delta.content ≠ "" then
      (acc ++ choice.delta.content, writes ++ [choice.delta.content])
    else (acc, writes)
  if choice.finishReason ≠ "" then (acc, writes ++ ["\n\n"]) else (acc, writes)

/-- Fold `processChoice` over a chunk's choices, in order. -/
def processChoices (choices : List ChatCompletionStreamResponseChoices)
    (acc : String) (writes : List String) : String × List String :=
  match choices with
  | [] => (acc, writes)
  | c :: rest =>
      let (acc, writes) := processChoice c acc writes
      processChoices rest acc writes

/-- How the `for scanner.Scan()` loop ended. -/
inductive LoopOutcome where
  /-- Break on the `[DONE]` sentinel. -/
  | doneSignal : LoopOutcome
  /-- The scanner yielded no more lines. -/
  | exhausted : LoopOutcome
  /-- Return on a chunk that failed to unmarshal, with its payload. -/
  | unmarshalFail (data : String) : LoopOutcome
  deriving DecidableEq, Repr

/-- The scan loop of client.go:194-225.  `parse` is the `json.Unmarshal`
oracle.  Lines not starting with `"data: "` are skipped; a `"[DONE]"`
payload breaks; otherwise the payload is parsed and its choices processed;
a parse failure ends the loop with its payload recorded. -/
def streamLoop (parse : String → Except String ChatCompletionStreamResponse) :
    List String → String → List String → String × List String × LoopOutcome
  | [], acc, writes => (acc, writes, .exhausted)
  | line :: rest, acc, writes =>
    if goStartsWith line "data: " then
      let data := goTrimLeading line "data: "
      if data = "[DONE]" then (acc, writes, .doneSignal)
      else
        match parse data with
        | .error _ => (acc, writes, .unmarshalFail data)
        | .ok chunk =>
            let (acc, writes) := processChoices chunk.choices acc writes
            streamLoop parse rest acc writes
    else
      streamLoop parse rest acc writes

/-- What `GetStreamingChatCompletion` produces: the returned accumulated
text, the sequence of writes issued to `outputWriter` (in order), and the
returned error, if any. -/
structure StreamResult where
  text : String
  writes : List String
  error : Option LLMError
  deriving DecidableEq, Repr

/-- Function `GetStreamingChatCompletion` (client.go:150-238), after the request
has been serialized and issued.  On transport failure it returns `""` and
either `context.Canceled` or a wrapped error; on a non-OK status it reads
the whole body into the error; otherwise it runs the scan loop.  A
`[DONE]` break returns the accumulated text with no error; a chunk that
fails to unmarshal returns `""` (client.go:211) with the unmarshal error;
when the scanner is exhausted, `scanner.Err()` decides between success,
`context.Canceled` and a wrapped read error, in each case returning the
accumulated text. -/
def GetStreamingChatCompletion
    (parse : String → Except String ChatCompletionStreamResponse)
    (doResult : DoResult StreamHTTPResponse) : StreamResult :=
  match doResult with
  | .error canceled =>
      { text := "", writes := [],
        error := some (if canceled then .canceled else .transportError) }
  | .ok resp =>
    if resp.statusCode ≠ 200 then
      { text := "", writes := [],
        error := some (.nonOKStatus resp.statusCode resp.bodyText) }
    else
      match streamLoop parse resp.lines "" [] with
      | (acc, writes, .doneSignal) => { text := acc, writes := writes, error := none }
      | (_, writes, .unmarshalFail data) =>
          { text := "", writes := writes, error := some (.unmarshalError data) }
      | (acc, writes, .exhausted) =>
          match resp.readErr with
          | some true => { text := acc, writes := writes, error := some .canceled }
          | some false => { text := acc, writes := writes, error := some .readError }
          | none => { text := acc, writes := writes, error := none }

/-! Section: the blocking call, `GetChatCompletion` (client.go:98-148) -/

/-- Function `GetChatCompletion`, after the request has been serialized and issued.
`decode` is the `json.Decoder` oracle applied to the body bytes. -/
def GetChatCompletion
    (decode : String → Except String ChatCompletionResponse)
    (doResult : DoResult BlockHTTPResponse) : Except LLMError ChatCompletionResponse :=
  match doResult with
  | .error canceled => .error (if canceled then .canceled else .transportError)
  | .ok resp =>
    if resp.statusCode ≠ 200 then
      .error (.nonOKStatus resp.statusCode resp.bodyText)
    else
      match decode resp.bodyText with
      | .error _ => .error .decodeError
      | .ok completionResp => .ok completionResp

/-! Section: templating (`internal/templating/template.go`) -/

/-- Struct `templating.Template`: the YAML template file shape. -/
structure Template where
  name : String
  description : String
  systemMessage : String
  userPromptTemplate : String
  model : String
  temperature : Option Float64
  deriving DecidableEq, Repr

/-- A parsed Go `text/template` node: literal text, or an
action `\x7b\x7b expr \x7d\x7d` whose trimmed expression is evaluated
against the data value. -/
inductive TemplNode where
  | text (s : String) : TemplNode
  | action (expr : String) : TemplNode
  deriving DecidableEq, Repr

/-- Find the first occurrence of `delim` in `l`: `some (pre, post)` with
`l = pre ++ delim ++ post` and `pre` shortest, `none` when absent. -/
def splitFirst (delim : List Char) : List Char → Option (List Char × List Char)
  | [] => if delim = [] then some ([], []) else none
  | c :: rest =>
    if delim.isPrefixOf (c :: rest) then some ([], (c :: rest).drop delim.length)
    else
      match splitFirst delim rest with
      | some (pre, post) => some (c :: pre, post)
      | none => none

/-- Opener `\x7b\x7b` of a `text/template` action. -/
def openDelim : List Char := ['{', '{']

/-- Closer `\x7d\x7d` of a `text/template` action. -/
def closeDelim : List Char := ['}', '}']

/-- Parse loop for the modelled `text/template.Parse`: alternate literal
text and delimited actions.  `fuel` only bounds the recursion; each step
consumes at least the two opener characters, so `chars.length` fuel is
never exhausted on the paths the program reaches. -/
def parseTNodes : Nat → List Char → Except String (List TemplNode)
  | fuel, chars =>
    match splitFirst openDelim chars with
    | none => .ok [.text ⟨chars⟩]
    | some (pre, rest) =>
      match fuel with
      | 0 => .error "template: nesting exceeded"
      | fuel + 1 =>
        match splitFirst closeDelim rest with
        | none => .error "template: unclosed action"
        | some (act, tail) => do
            let nodes ← parseTNodes fuel tail
            .ok (.text ⟨pre⟩ :: .action (goTrimSpace ⟨act⟩) :: nodes)

/-- Modelled from Go `text/template.Template.Parse`: literal text outside
`\x7b\x7b...\x7d\x7d` is kept verbatim; each action holds its trimmed
expression.  An opener with no closer is a parse error. -/
def parseTemplateText (s : String) : Except String (List TemplNode) :=
  parseTNodes s.data.length s.data

/-- Modelled from Go `text/template` execution: a field action `.F` looks
up field `F` of the data value — here the `Template` struct the program
passes as data.  Unknown expressions fail, as `Execute` does. -/
def evalAction (t : Template) (expr : String) : Except String String :=
  if expr = ".Name" then .ok t.name
  else if expr = ".Description" then .ok t.description
  else if expr = ".SystemMessage" then .ok t.systemMessage
  else if expr = ".UserPromptTemplate" then .ok t.userPromptTemplate
  else if expr = ".Model" then .ok t.model
  else .error ("template: can't evaluate " ++ expr)

/-- Modelled from Go `text/template.Template.Execute`: concatenate literal
text and evaluated actions, in order. -/
def execTemplate (t : Template) : List TemplNode → Except String String
  | [] => .ok ""
  | .text s :: rest => do
      let r ← execTemplate t rest
      .ok (s ++ r)
  | .action e :: rest => do
      let a ← evalAction t e
      let r ← execTemplate t rest
      .ok (a ++ r)

/-- Method `Template.ProcessUserPromptTemplate` (template.go:21-34): parse the
caller's raw prompt as the template text and execute it with the
`Template` struct as data. -/
def Template.ProcessUserPromptTemplate (t : Template) (rawPrompt : String) :
    Except String String := do
  let nodes ← parseTemplateText rawPrompt
  execTemplate t nodes

/-! Section: prompt resolution, `getPromptContent` (cmd package) -/

/-- The straight-line tail of `getPromptContent` once the three sources
have been read and trimmed (`f` = file, `s` = stdin, `c` = CLI text): the
precedence chain of the Go function, followed by its final emptiness
check. -/
def resolvePrompt (f s c : String) : Except String String :=
  (if f ≠ "" then
     Except.ok f
   else if s ≠ "" && c ≠ "" then
     Except.ok (c ++ "\n\n" ++ s)
   else if s ≠ "" then
     Except.ok s
   else if c ≠ "" then
     Except.ok c
   else
     Except.error "no prompt provided. Use 'llm \"your prompt\"', pipe input, or specify a file with -f").bind
    (fun finalPrompt =>
      if finalPrompt = "" then
        Except.error "prompt cannot be empty after combining inputs"
      else Except.ok finalPrompt)

/-- Function `getPromptContent`.  `stdinRead` is `none` when stdin is not piped
(the `ModeCharDevice` test), otherwise the result of `io.ReadAll(os.Stdin)`;
`fileRead` is `none` when `--prompt-file` was not given, otherwise the
result of `os.ReadFile`.  Read failures return early with an error.  The
final precedence chain is file > (cli combined with stdin) > stdin > cli >
error, each source trimmed of surrounding whitespace first. -/
def getPromptContent (cliArgs : List String)
    (stdinRead : Option (Except String String))
    (fileRead : Option (Except String String)) : Except String String := do
  let stdinContent ←
    match stdinRead with
    | none => pure ""
    | some (.error e) => throw ("error reading stdin: " ++ e)
    | some (.ok raw) => pure (goTrimSpace raw)
  let fileContent ←
    match fileRead with
    | none => pure ""
    | some (.error e) => throw ("error reading prompt file: " ++ e)
    | some (.ok raw) => pure (goTrimSpace raw)
  resolvePrompt fileContent stdinContent (goTrimSpace (goJoin " " cliArgs))

/-! Section: request building and blocking output, `rootCmd.RunE` (root.go:102-200) -/

/-- The message/model/temperature assembly of root.go:102-169: with a
template, an optional system message (only when non-empty), then the
processed user prompt; the template's model and temperature, when present,
override the resolved ones.  Without a template, just the user prompt with
the resolved model and no temperature. -/
def buildCompletionRequest (templateOpt : Option Template)
    (finalPrompt resolvedModel : String) : Except String ChatCompletionRequest :=
  match templateOpt with
  | some t =>
      let sysMessages :=
        if t.systemMessage ≠ "" then
          [{ role := "system", content := t.systemMessage : ChatCompletionMessage }]
        else []
      match t.ProcessUserPromptTemplate finalPrompt with
      | .error e => .error e
      | .ok processedUserPrompt =>
          let completionMessages :=
            sysMessages ++
              [{ role := "user", content := processedUserPrompt : ChatCompletionMessage }]
          let finalResolvedModel := if t.model ≠ "" then t.model else resolvedModel
          .ok { model := finalResolvedModel, messages := completionMessages,
                stream := false, temperature := t.temperature }
  | none =>
      .ok { model := resolvedModel,
            messages := [{ role := "user", content := finalPrompt : ChatCompletionMessage }],
            stream := false, temperature := none }

/-- Errors the run of the root command can surface in blocking mode. -/
inductive RunError where
  /-- An error from `GetChatCompletion`, passed through. -/
  | client (e : LLMError) : RunError
  /-- Error `errors.New("no completion choices received")` (root.go:199). -/
  | noChoices : RunError
  deriving DecidableEq, Repr

/-- The blocking branch of `rootCmd.RunE` (root.go:171-200): call
`GetChatCompletion`; when it succeeds with at least one choice, render and
print the first choice's message content (`.ok` carries the content handed
to the renderer); an empty `choices` returns the distinct no-choices
error. -/
def runBlocking (decode : String → Except String ChatCompletionResponse)
    (doResult : DoResult BlockHTTPResponse) : Except RunError String :=
  match GetChatCompletion decode doResult with
  | .error e => .error (.client e)
  | .ok completion =>
    match completion.choices with
    | choice :: _ => .ok choice.message.content
    | [] => .error .noChoices

/-! Section: statement vocabulary shared by the theorems below -/

/-- A server-sent-event line carrying payload `d`. -/
def mkDataLine (d : String) : String := "data: " ++ d

/-- Concatenation of a list of strings, in order. -/
def concatAll : List String → String
  | [] => ""
  | s :: rest => s ++ concatAll rest

/-- Payload `d` unmarshals (under `parse`) to a chunk carrying exactly one
choice, whose delta content is the non-empty `c` and whose finish reason is
empty, and `d` is not the sentinel. -/
def carriesContent (parse : String → Except String ChatCompletionStreamResponse)
    (d c : String) : Prop :=
  d ≠ "[DONE]" ∧ c ≠ "" ∧
  ∃ ch, parse d = Except.ok ch ∧
    ch.choices.map (fun x => (x.delta.content, x.finishReason)) = [(c, "")]

/-- Line `line` lets the scan loop move on to the next line: it either
lacks the `"data: "` marker, or its payload is not the sentinel and
unmarshals successfully. -/
def processableLine (parse : String → Except String ChatCompletionStreamResponse)
    (line : String) : Prop :=
  goStartsWith line "data: " = false ∨
  (goTrimLeading line "data: " ≠ "[DONE]" ∧
   ∃ ch, parse (goTrimLeading line "data: ") = Except.ok ch)

/-- The effective content of an optional read: `some ""` when the source
is absent, the trimmed text when the read succeeded, `none` on a read
error. -/
def readContent : Option (Except String String) → Option String
  | none => some ""
  | some (.ok raw) => some (goTrimSpace raw)
  | some (.error _) => none

/-! Section: concrete unmarshal oracle used by the witnesses -/

/-- A chunk with a single content-carrying choice, shaped like the chunks
of the repository's own streaming test. -/
def contentChunk (c : String) : ChatCompletionStreamResponse :=
  { id := "chat-stream-test", created := 0, model := "m",
    choices := [{ index := 0, delta := { role := "assistant", content := c },
                  finishReason := "" }] }

/-- A chunk with a single empty-delta choice carrying a finish reason. -/
def finishChunk (r : String) : ChatCompletionStreamResponse :=
  { id := "chat-stream-test", created := 0, model := "m",
    choices := [{ index := 0, delta := { role := "", content := "" },
                  finishReason := r }] }

/-- An unmarshal oracle for concrete streams: payloads `p1`, `p2`, `p3`
decode to the chunks of the repository's streaming test (`"This"`, `" is"`,
then an empty delta with finish reason `"stop"`); every other payload
fails, as `json.Unmarshal` does on invalid JSON. -/
def demoParse : String → Except String ChatCompletionStreamResponse := fun d =>
  if d = "p1" then .ok (contentChunk "This")
  else if d = "p2" then .ok (contentChunk " is")
  else if d = "p3" then .ok (finishChunk "stop")
  else .error "invalid character"

/-- A decode oracle whose response has an empty `choices` array, like the
wire body `\x7b"id": "x", "choices": []\x7d`. -/
def emptyChoicesDecode : String → Except String ChatCompletionResponse :=
  fun _ => .ok { id := "x", choices := [] }

/-- A concrete template for the witnesses below. -/
def demoTemplate : Template :=
  { name := "code-review", description := "Reviews code",
    systemMessage := "You are a code reviewer.",
    userPromptTemplate := "Review this: \x7b\x7b.UserPrompt\x7d\x7d",
    model := "openai/gpt-4o", temperature := some (7 / 10) }

/-! Section: helper lemmas -/

theorem isPrefixOf_append_self (p l : List Char) : p.isPrefixOf (p ++ l) = true := by
  induction p with
  | nil => simp [List.isPrefixOf]
  | cons a as ih => simp [List.isPrefixOf, ih]

theorem goStartsWith_append (p d : String) : goStartsWith (p ++ d) p = true := by
  simp [goStartsWith, String.data_append, isPrefixOf_append_self]

theorem goTrimLeading_append (p d : String) : goTrimLeading (p ++ d) p = d := by
  simp [goTrimLeading, goStartsWith_append, String.data_append, List.drop_left]

theorem string_append_empty (s : String) : s ++ "" = s := by
  simp

theorem processChoices_single_content
    (x : ChatCompletionStreamResponseChoices) (c acc : String) (writes : List String)
    (hc : x.delta.content = c) (hf : x.finishReason = "") (hne : c ≠ "") :
    processChoices [x] acc writes = (acc ++ c, writes ++ [c]) := by
  simp [processChoices, processChoice, hc, hf, hne]

theorem streamLoop_cons_chunk
    (parse : String → Except String ChatCompletionStreamResponse)
    (d : String) (rest : List String) (acc : String) (writes : List String)
    (chunk : ChatCompletionStreamResponse)
    (hd : d ≠ "[DONE]") (hp : parse d = Except.ok chunk) :
    streamLoop parse (mkDataLine d :: rest) acc writes =
      streamLoop parse rest (processChoices chunk.choices acc writes).1
        (processChoices chunk.choices acc writes).2 := by
  simp [streamLoop, mkDataLine, goStartsWith_append, goTrimLeading_append, hd, hp]

theorem streamLoop_chunks
    (parse : String → Except String ChatCompletionStreamResponse)
    {datas contents : List String}
    (h : List.Forall₂ (carriesContent parse) datas contents) :
    ∀ (tail : List String) (acc : String) (writes : List String),
      streamLoop parse (datas.map mkDataLine ++ tail) acc writes =
        streamLoop parse tail (acc ++ concatAll contents) (writes ++ contents) := by
  induction h with
  | nil => simp [concatAll]
  | cons hdc _ ih =>
      intro tail acc writes
      obtain ⟨hd, hcne, ch, hp, hmap⟩ := hdc
      match hch : ch.choices with
      | [] => rw [hch] at hmap; simp at hmap
      | x :: xs =>
          rw [hch] at hmap
          simp only [List.map_cons, List.cons.injEq, Prod.mk.injEq] at hmap
          obtain ⟨⟨hc, hf⟩, hxs⟩ := hmap
          have hxsnil : xs = [] := by
            cases xs with
            | nil => rfl
            | cons _ _ => simp at hxs
          subst hxsnil
          rw [List.map_cons, List.cons_append,
            streamLoop_cons_chunk parse _ _ acc writes ch hd hp, hch,
            processChoices_single_content x _ acc writes hc hf hcne]
          rw [ih tail]
          simp [concatAll, String.append_assoc]

theorem streamLoop_done
    (parse : String → Except String ChatCompletionStreamResponse)
    (rest : List String) (acc : String) (writes : List String) :
    streamLoop parse (mkDataLine "[DONE]" :: rest) acc writes =
      (acc, writes, LoopOutcome.doneSignal) := by
  have h1 : goStartsWith "data: [DONE]" "data: " = true := by decide
  have h2 : goTrimLeading "data: [DONE]" "data: " = "[DONE]" := by decide
  simp [streamLoop, mkDataLine, h1, h2]

theorem streamLoop_processable_exhausted
    (parse : String → Except String ChatCompletionStreamResponse) :
    ∀ (lines : List String), (∀ l ∈ lines, processableLine parse l) →
      ∀ (acc : String) (writes : List String),
        (streamLoop parse lines acc writes).2.2 = LoopOutcome.exhausted := by
  intro lines
  induction lines with
  | nil => intro _ acc writes; rfl
  | cons line rest ih =>
      intro h acc writes
      have hrest : ∀ l ∈ rest, processableLine parse l := by
        intro l hl; exact h l (List.mem_cons_of_mem _ hl)
      rcases h line (List.mem_cons_self line rest) with hskip | ⟨hne, ch, hok⟩
      · simp [streamLoop, hskip]
        exact ih hrest acc writes
      · by_cases hs : goStartsWith line "data: " = true
        · simp [streamLoop, hs, hne, hok]
          exact ih hrest _ _
        · simp only [Bool.not_eq_true] at hs
          simp [streamLoop, hs]
          exact ih hrest acc writes

theorem streamLoop_cons_bad
    (parse : String → Except String ChatCompletionStreamResponse)
    (d : String) (rest : List String) (acc : String) (writes : List String) (e : String)
    (hd : d ≠ "[DONE]") (hp : parse d = Except.error e) :
    streamLoop parse (mkDataLine d :: rest) acc writes =
      (acc, writes, LoopOutcome.unmarshalFail d) := by
  simp [streamLoop, mkDataLine, goStartsWith_append, goTrimLeading_append, hd, hp]

/-! Section: the claims -/

/-- C1: for every well-formed stream of `data: ` lines whose chunks each
carry a single choice with non-empty delta contents `c_1..c_N`, followed by
a `data: [DONE]` line, `GetStreamingChatCompletion` returns the
concatenation `c_1 ++ ... ++ c_N` with no error, and the sink receives
exactly those pieces in arrival order, nothing else. -/
theorem C1_streaming_concatenation
    (parse : String → Except String ChatCompletionStreamResponse)
    (datas contents : List String) (bodyText : String) (readErr : Option Bool)
    (h : List.Forall₂ (carriesContent parse) datas contents) :
    GetStreamingChatCompletion parse
      (.ok { statusCode := 200, bodyText := bodyText,
             lines := datas.map mkDataLine ++ [mkDataLine "[DONE]"],
             readErr := readErr }) =
      { text := concatAll contents, writes := contents, error := none } := by
  have hloop := streamLoop_chunks parse h [mkDataLine "[DONE]"] "" []
  rw [streamLoop_done] at hloop
  simp only [GetStreamingChatCompletion, ne_eq]
  rw [if_neg (by simp)]
  rw [hloop]
  simp

/-- Witness for C1 at the repository's own two-chunk stream. -/
theorem C1_streaming_concatenation_witness :
    GetStreamingChatCompletion demoParse
      (.ok { statusCode := 200, bodyText := "",
             lines := ["p1", "p2"].map mkDataLine ++ [mkDataLine "[DONE]"],
             readErr := none }) =
      { text := concatAll ["This", " is"], writes := ["This", " is"], error := none } :=
  C1_streaming_concatenation demoParse ["p1", "p2"] ["This", " is"] "" none
    (List.Forall₂.cons ⟨by decide, by decide, contentChunk "This", rfl, by decide⟩
      (List.Forall₂.cons ⟨by decide, by decide, contentChunk " is", rfl, by decide⟩
        List.Forall₂.nil))

/-- C2 counterexample: after the two valid chunks `"This"`, `" is"`, a
malformed `data: ` payload makes the call return an error, but the
returned accumulated text is `""`, not the concatenation `"This is"` of
the two valid chunks (client.go:211 returns `""` with the unmarshal
error); the two contents had nevertheless already reached the sink. -/
theorem C2_partial_text_counterexample :
    GetStreamingChatCompletion demoParse
      (.ok { statusCode := 200, bodyText := "",
             lines := ["data: p1", "data: p2", "data: junk"], readErr := none }) =
      { text := "", writes := ["This", " is"],
        error := some (LLMError.unmarshalError "junk") } ∧
    ("" : String) ≠ "This is" := by
  constructor
  · rfl
  · decide

/-- C2 (amended): a `data: ` payload that fails to unmarshal makes
`GetStreamingChatCompletion` return the unmarshal error immediately
together with an empty accumulated text — the text accumulated from the
chunks before the failure is discarded from the return value, although it
was already written to the output sink. -/
theorem C2_unmarshal_error_returns_empty
    (parse : String → Except String ChatCompletionStreamResponse)
    (datas contents : List String) (d : String) (rest : List String)
    (bodyText : String) (readErr : Option Bool) (e : String)
    (h : List.Forall₂ (carriesContent parse) datas contents)
    (hd : d ≠ "[DONE]") (hp : parse d = Except.error e) :
    GetStreamingChatCompletion parse
      (.ok { statusCode := 200, bodyText := bodyText,
             lines := datas.map mkDataLine ++ mkDataLine d :: rest,
             readErr := readErr }) =
      { text := "", writes := contents,
        error := some (LLMError.unmarshalError d) } := by
  have hloop := streamLoop_chunks parse h (mkDataLine d :: rest) "" []
  rw [streamLoop_cons_bad parse d rest _ _ e hd hp] at hloop
  simp only [GetStreamingChatCompletion, ne_eq]
  rw [if_neg (by simp)]
  rw [hloop]
  simp

/-- Witness for the amended C2 at a concrete two-chunks-then-junk stream. -/
theorem C2_unmarshal_error_returns_empty_witness :
    GetStreamingChatCompletion demoParse
      (.ok { statusCode := 200, bodyText := "",
             lines := ["p1", "p2"].map mkDataLine ++ mkDataLine "junk" :: [],
             readErr := none }) =
      { text := "", writes := ["This", " is"],
        error := some (LLMError.unmarshalError "junk") } :=
  C2_unmarshal_error_returns_empty demoParse ["p1", "p2"] ["This", " is"]
    "junk" [] "" none "invalid character"
    (List.Forall₂.cons ⟨by decide, by decide, contentChunk "This", rfl, by decide⟩
      (List.Forall₂.cons ⟨by decide, by decide, contentChunk " is", rfl, by decide⟩
        List.Forall₂.nil))
    (by decide) rfl

theorem combined_ne_empty (c s : String) : c ++ "\n\n" ++ s ≠ "" := by
  intro h
  have hlen := congrArg String.length h
  rw [String.length_append, String.length_append] at hlen
  have h2 : ("\n\n" : String).length = 2 := rfl
  rw [h2] at hlen
  have h0 : ("" : String).length = 0 := rfl
  rw [h0] at hlen
  omega

theorem resolvePrompt_cases (f s c : String) :
    (f ≠ "" → resolvePrompt f s c = .ok f) ∧
    (f = "" → s ≠ "" → c ≠ "" → resolvePrompt f s c = .ok (c ++ "\n\n" ++ s)) ∧
    (f = "" → s ≠ "" → c = "" → resolvePrompt f s c = .ok s) ∧
    (f = "" → s = "" → c ≠ "" → resolvePrompt f s c = .ok c) ∧
    (f = "" → s = "" → c = "" → ∃ msg, resolvePrompt f s c = .error msg) := by
  refine ⟨fun h1 => ?_, fun h1 h2 h3 => ?_, fun h1 h2 h3 => ?_,
    fun h1 h2 h3 => ?_, fun h1 h2 h3 => ?_⟩
  · simp [resolvePrompt, h1, Except.bind]
  · simp [resolvePrompt, h1, h2, h3, combined_ne_empty, Except.bind]
  · simp [resolvePrompt, h1, h2, h3, Except.bind]
  · simp [resolvePrompt, h1, h2, h3, Except.bind]
  · exact ⟨"no prompt provided. Use 'llm \"your prompt\"', pipe input, or specify a file with -f",
      by simp [resolvePrompt, h1, h2, h3, Except.bind]⟩

/-- C3 counterexample: with empty file source, CLI text `"B"` and piped
stdin `"A"`, `getPromptContent` returns the combination `"B\n\nA"` — the
CLI text first, then the stdin content — not the stdin content alone, so
non-empty piped stdin does not take precedence over CLI argument text. -/
theorem C3_stdin_precedence_counterexample :
    getPromptContent ["B"] (some (.ok "A")) none = .ok "B\n\nA" ∧
    ("B\n\nA" : String) ≠ "A" := by
  constructor
  · rfl
  · decide

/-- C3 (amended): with trimmed file content `f`, trimmed stdin content `s`
and trimmed CLI text `c`, the resolved prompt follows the precedence: a
non-empty `f` is used alone; otherwise, when both `s` and `c` are
non-empty they are combined as `c ++ "\n\n" ++ s`; otherwise a non-empty
`s` is used; otherwise a non-empty `c`; and when all three are empty,
`getPromptContent` returns an error rather than an empty prompt. -/
theorem C3_prompt_precedence
    (cliArgs : List String) (stdinRead fileRead : Option (Except String String))
    (s f : String)
    (hs : readContent stdinRead = some s) (hf : readContent fileRead = some f) :
    (f ≠ "" → getPromptContent cliArgs stdinRead fileRead = .ok f) ∧
    (f = "" → s ≠ "" → goTrimSpace (goJoin " " cliArgs) ≠ "" →
      getPromptContent cliArgs stdinRead fileRead =
        .ok (goTrimSpace (goJoin " " cliArgs) ++ "\n\n" ++ s)) ∧
    (f = "" → s ≠ "" → goTrimSpace (goJoin " " cliArgs) = "" →
      getPromptContent cliArgs stdinRead fileRead = .ok s) ∧
    (f = "" → s = "" → goTrimSpace (goJoin " " cliArgs) ≠ "" →
      getPromptContent cliArgs stdinRead fileRead =
        .ok (goTrimSpace (goJoin " " cliArgs))) ∧
    (f = "" → s = "" → goTrimSpace (goJoin " " cliArgs) = "" →
      ∃ msg, getPromptContent cliArgs stdinRead fileRead = .error msg) := by
  have key : getPromptContent cliArgs stdinRead fileRead =
      resolvePrompt f s (goTrimSpace (goJoin " " cliArgs)) := by
    cases stdinRead with
    | none =>
        simp only [readContent, Option.some.injEq] at hs
        subst hs
        cases fileRead with
        | none =>
            simp only [readContent, Option.some.injEq] at hf
            subst hf
            rfl
        | some r =>
            cases r with
            | error e => simp [readContent] at hf
            | ok raw =>
                simp only [readContent, Option.some.injEq] at hf
                subst hf
                rfl
    | some r =>
        cases r with
        | error e => simp [readContent] at hs
        | ok raw =>
            simp only [readContent, Option.some.injEq] at hs
            subst hs
            cases fileRead with
            | none =>
                simp only [readContent, Option.some.injEq] at hf
                subst hf
                rfl
            | some r2 =>
                cases r2 with
                | error e => simp [readContent] at hf
                | ok raw2 =>
                    simp only [readContent, Option.some.injEq] at hf
                    subst hf
                    rfl
  rw [key]
  exact resolvePrompt_cases f s (goTrimSpace (goJoin " " cliArgs))

/-- Witness for the amended C3 at the counterexample's input. -/
theorem C3_prompt_precedence_witness :
    getPromptContent ["B"] (some (.ok "A")) none = .ok ("B" ++ "\n\n" ++ "A") :=
  (C3_prompt_precedence ["B"] (some (.ok "A")) none "A" "" rfl rfl).2.1
    rfl (by decide) (by decide)

/-- C4: when the blocking call succeeds but the response's `choices` array
is empty, the run reports the distinct no-choices error and never prints
any message (in particular not an empty one). -/
theorem C4_empty_choices_error
    (decode : String → Except String ChatCompletionResponse)
    (doResult : DoResult BlockHTTPResponse) (completion : ChatCompletionResponse)
    (hok : GetChatCompletion decode doResult = .ok completion)
    (hempty : completion.choices = []) :
    runBlocking decode doResult = .error RunError.noChoices ∧
    ∀ out, runBlocking decode doResult ≠ .ok out := by
  constructor
  · simp [runBlocking, hok, hempty]
  · intro out
    simp [runBlocking, hok, hempty]

/-- Witness for C4: a 200 response whose body decodes to `"choices": []`. -/
theorem C4_empty_choices_error_witness :
    runBlocking emptyChoicesDecode (.ok { statusCode := 200, bodyText := "body" }) =
      .error RunError.noChoices :=
  (C4_empty_choices_error emptyChoicesDecode
    (.ok { statusCode := 200, bodyText := "body" }) { id := "x", choices := [] }
    rfl rfl).1

/-- C5: a stream whose lines the loop can all consume (no `[DONE]`
sentinel among them) and whose reader then reports clean end-of-input
yields the accumulated text with no error — absence of the sentinel is not
an error. -/
theorem C5_missing_sentinel_success
    (parse : String → Except String ChatCompletionStreamResponse)
    (lines : List String) (bodyText : String)
    (h : ∀ l ∈ lines, processableLine parse l) :
    GetStreamingChatCompletion parse
      (.ok { statusCode := 200, bodyText := bodyText, lines := lines,
             readErr := none }) =
      { text := (streamLoop parse lines "" []).1,
        writes := (streamLoop parse lines "" []).2.1, error := none } := by
  have hout := streamLoop_processable_exhausted parse lines h "" []
  rcases hsl : streamLoop parse lines "" [] with ⟨acc, writes, outcome⟩
  rw [hsl] at hout
  simp only at hout
  subst hout
  simp only [GetStreamingChatCompletion, ne_eq]
  rw [if_neg (by simp), hsl]

/-- Witness for C5: two content chunks and a non-marker line, no sentinel. -/
theorem C5_missing_sentinel_success_witness :
    GetStreamingChatCompletion demoParse
      (.ok { statusCode := 200, bodyText := "",
             lines := ["data: p1", ": keepalive", "data: p2"], readErr := none }) =
      { text := "This is", writes := ["This", " is"], error := none } :=
  C5_missing_sentinel_success demoParse ["data: p1", ": keepalive", "data: p2"] ""
    (by
      intro l hl
      simp only [List.mem_cons, List.not_mem_nil, or_false] at hl
      rcases hl with rfl | rfl | rfl
      · exact Or.inr ⟨by decide, contentChunk "This", rfl⟩
      · exact Or.inl (by decide)
      · exact Or.inr ⟨by decide, contentChunk " is", rfl⟩)

/-- C8: when the read of the streaming body fails after the consumable
lines, the call returns the text accumulated so far together with an
error, and that error is `context.Canceled` exactly when the failure was
caused by the cancellation signal, a wrapped read error otherwise. -/
theorem C8_read_failure_kinds
    (parse : String → Except String ChatCompletionStreamResponse)
    (lines : List String) (bodyText : String) (canceled : Bool)
    (h : ∀ l ∈ lines, processableLine parse l) :
    GetStreamingChatCompletion parse
      (.ok { statusCode := 200, bodyText := bodyText, lines := lines,
             readErr := some canceled }) =
      { text := (streamLoop parse lines "" []).1,
        writes := (streamLoop parse lines "" []).2.1,
        error := some (if canceled then LLMError.canceled else LLMError.readError) } := by
  have hout := streamLoop_processable_exhausted parse lines h "" []
  rcases hsl : streamLoop parse lines "" [] with ⟨acc, writes, outcome⟩
  rw [hsl] at hout
  simp only at hout
  subst hout
  simp only [GetStreamingChatCompletion, ne_eq]
  rw [if_neg (by simp), hsl]
  cases canceled <;> simp

/-- Witness for C8: one content chunk, then a cancellation-caused read
failure. -/
theorem C8_read_failure_kinds_witness :
    GetStreamingChatCompletion demoParse
      (.ok { statusCode := 200, bodyText := "", lines := ["data: p1"],
             readErr := some true }) =
      { text := "This", writes := ["This"], error := some LLMError.canceled } :=
  C8_read_failure_kinds demoParse ["data: p1"] "" true
    (by
      intro l hl
      simp only [List.mem_cons, List.not_mem_nil, or_false] at hl
      rcases hl with rfl
      exact Or.inr ⟨by decide, contentChunk "This", rfl⟩)

/-- C6: a non-success HTTP status makes both calls return the non-OK error
carrying the status code and the full body text, without consulting the
chunk or JSON decoders (the results do not depend on `parse` or `decode`),
and the error's message contains both the decimal status code and the body
text. -/
theorem C6_non_ok_status
    (parse : String → Except String ChatCompletionStreamResponse)
    (decode : String → Except String ChatCompletionResponse)
    (resp : StreamHTTPResponse) (bresp : BlockHTTPResponse)
    (code : Nat) (body : String)
    (hs : resp.statusCode ≠ 200) (hb : bresp.statusCode ≠ 200) :
    GetStreamingChatCompletion parse (.ok resp) =
      { text := "", writes := [],
        error := some (LLMError.nonOKStatus resp.statusCode resp.bodyText) } ∧
    GetChatCompletion decode (.ok bresp) =
      .error (LLMError.nonOKStatus bresp.statusCode bresp.bodyText) ∧
    containsText (LLMError.message (.nonOKStatus code body)) (toString code) ∧
    containsText (LLMError.message (.nonOKStatus code body)) body := by
  refine ⟨?_, ?_, ?_, ?_⟩
  · simp only [GetStreamingChatCompletion]
    rw [if_pos hs]
  · simp only [GetChatCompletion]
    rw [if_pos hb]
  · exact ⟨"LLM API returned non-OK status: ", ", body: " ++ body,
      by simp [LLMError.message, String.append_assoc]⟩
  · exact ⟨"LLM API returned non-OK status: " ++ toString code ++ ", body: ", "",
      by simp [LLMError.message, String.append_assoc]⟩

/-- Witness for C6 at status 429 with body `"rate limited"`. -/
theorem C6_non_ok_status_witness :
    GetStreamingChatCompletion demoParse
      (.ok { statusCode := 429, bodyText := "rate limited", lines := [],
             readErr := none }) =
      { text := "", writes := [],
        error := some (LLMError.nonOKStatus 429 "rate limited") } ∧
    containsText (LLMError.message (.nonOKStatus 429 "rate limited")) "429" ∧
    containsText (LLMError.message (.nonOKStatus 429 "rate limited")) "rate limited" := by
  have h := C6_non_ok_status demoParse emptyChoicesDecode
    { statusCode := 429, bodyText := "rate limited", lines := [], readErr := none }
    { statusCode := 429, bodyText := "rate limited" } 429 "rate limited"
    (by decide) (by decide)
  exact ⟨h.1, h.2.2.1, h.2.2.2⟩

/-- C7: a choice with a non-empty finish reason writes the two-newline
separator to the sink without appending it to the accumulated text; the
loop keeps consuming lines after a parsed chunk; and on the concrete
stream `"This"`, `" is"`, an empty delta with finish reason `"stop"`,
then `[DONE]`, the accumulated text is `"This is"` and the sink receives
`"This is\n\n"`. -/
theorem C7_finish_reason_separator :
    (∀ (choice : ChatCompletionStreamResponseChoices) (acc : String)
        (writes : List String), choice.finishReason ≠ "" →
      processChoice choice acc writes =
        ((if choice.delta.content ≠ "" then acc ++ choice.delta.content else acc),
         (if choice.delta.content ≠ "" then writes ++ [choice.delta.content]
          else writes) ++ ["\n\n"])) ∧
    (∀ (parse : String → Except String ChatCompletionStreamResponse)
        (d : String) (rest : List String) (acc : String) (writes : List String)
        (chunk : ChatCompletionStreamResponse),
      d ≠ "[DONE]" → parse d = Except.ok chunk →
      streamLoop parse (mkDataLine d :: rest) acc writes =
        streamLoop parse rest (processChoices chunk.choices acc writes).1
          (processChoices chunk.choices acc writes).2) ∧
    (GetStreamingChatCompletion demoParse
        (.ok { statusCode := 200, bodyText := "",
               lines := ["data: p1", "data: p2", "data: p3", "data: [DONE]"],
               readErr := none }) =
      { text := "This is", writes := ["This", " is", "\n\n"], error := none } ∧
     concatAll ["This", " is", "\n\n"] = "This is\n\n") := by
  refine ⟨?_, ?_, ?_, ?_⟩
  · intro choice acc writes hfin
    by_cases hc : choice.delta.content ≠ ""
    · simp [processChoice, hc, hfin]
    · simp only [ne_eq, not_not] at hc
      simp [processChoice, hc, hfin]
  · intro parse d rest acc writes chunk hd hp
    exact streamLoop_cons_chunk parse d rest acc writes chunk hd hp
  · rfl
  · rfl

/-- Witness for C7 at a finish-reason choice following accumulated
content. -/
theorem C7_finish_reason_separator_witness :
    processChoice
      { index := 0, delta := { role := "", content := "" }, finishReason := "stop" }
      "This is" ["This", " is"] = ("This is", ["This", " is", "\n\n"]) := by
  have h := C7_finish_reason_separator.1
    { index := 0, delta := { role := "", content := "" }, finishReason := "stop" }
    "This is" ["This", " is"] (by decide)
  exact h.trans (by decide)

/-- C9: the built request's messages are `[system, user]` exactly when the
template's system message is non-empty and `[user]` otherwise (also with
no template at all); the user content is the expanded prompt; and the
template's model and temperature, when present, replace the resolved
ones. -/
theorem C9_request_messages
    (t : Template) (finalPrompt resolvedModel processed : String)
    (hp : Template.ProcessUserPromptTemplate t finalPrompt = .ok processed) :
    (t.systemMessage ≠ "" →
      buildCompletionRequest (some t) finalPrompt resolvedModel =
        .ok { model := if t.model ≠ "" then t.model else resolvedModel,
              messages := [{ role := "system", content := t.systemMessage },
                           { role := "user", content := processed }],
              stream := false, temperature := t.temperature }) ∧
    (t.systemMessage = "" →
      buildCompletionRequest (some t) finalPrompt resolvedModel =
        .ok { model := if t.model ≠ "" then t.model else resolvedModel,
              messages := [{ role := "user", content := processed }],
              stream := false, temperature := t.temperature }) ∧
    (buildCompletionRequest none finalPrompt resolvedModel =
      .ok { model := resolvedModel,
            messages := [{ role := "user", content := finalPrompt }],
            stream := false, temperature := none }) := by
  refine ⟨fun h => ?_, fun h => ?_, rfl⟩
  · simp [buildCompletionRequest, hp, h]
  · simp [buildCompletionRequest, hp, h]

/-- Witness for C9 at a template with a system message and a model and
temperature override. -/
theorem C9_request_messages_witness :
    buildCompletionRequest (some demoTemplate) "hi" "google/gemini-2.5-flash" =
      .ok { model := "openai/gpt-4o",
            messages := [{ role := "system", content := "You are a code reviewer." },
                         { role := "user", content := "hi" }],
            stream := false, temperature := some (7 / 10) } :=
  (C9_request_messages demoTemplate "hi" "google/gemini-2.5-flash" "hi" rfl).1
    (by decide)

/-- C10: `ProcessUserPromptTemplate` parses the raw prompt itself as the
template text, so a raw prompt with no action opener expands to itself
unchanged, whatever the template — in particular whatever its
`UserPromptTemplate` field — holds. -/
theorem C10_raw_prompt_identity (t : Template) (raw : String)
    (h : splitFirst openDelim raw.data = none) :
    Template.ProcessUserPromptTemplate t raw = .ok raw ∧
    ∀ u : String,
      Template.ProcessUserPromptTemplate { t with userPromptTemplate := u } raw =
        .ok raw := by
  have key : ∀ t' : Template, Template.ProcessUserPromptTemplate t' raw = .ok raw := by
    intro t'
    unfold Template.ProcessUserPromptTemplate parseTemplateText
    rw [parseTNodes, h]
    show Except.ok (String.mk raw.data ++ "") = Except.ok raw
    rw [string_append_empty]
  exact ⟨key t, fun u => key _⟩

/-- Witness for C10 at a directive-free raw prompt. -/
theorem C10_raw_prompt_identity_witness :
    Template.ProcessUserPromptTemplate demoTemplate "Tell me a story." =
      .ok "Tell me a story." :=
  (C10_raw_prompt_identity demoTemplate "Tell me a story." (by decide)).1

end LLMSpec
